import Mathlib

/-!
Verification of the reauthfi repository: a macOS captive-portal detector with a
thin Node.js wrapper.  The wrapper sources (index.js spawning the CLI binary,
the native-binding loader, and bin.js) are embedded directly from the
JavaScript; the Rust detection core is not part of the repository snapshot, so
its behaviour is modelled from the specification where a claim needs it (each
such definition carries a doc comment starting with "Modelled from the spec:").
-/

namespace Reauthfi

/-! ## Host platform model (process.platform / process.arch) -/

structure Host where
  platform : String
  arch : String
deriving DecidableEq, Repr

def platformSupported (h : Host) : Prop :=
  h.platform = ("darwin") ∧ h.arch = ("arm64")

instance (h : Host) : Decidable (platformSupported h) :=
  inferInstanceAs (Decidable (h.platform = ("darwin") ∧ h.arch = ("arm64")))

/-! ## Errors thrown or rejected by the JavaScript wrapper layer -/

inductive JsError where
  | unsupportedPlatform (platform arch : String)
  | unsupportedPlatformModule
  | loadFailed (cause : String)
  | spawnError (msg : String)
  | signalExit (sig : String)
  | codeExit (code : Option Int)
deriving DecidableEq, Repr

/-- A synchronous JavaScript call either throws or returns a value. -/
inductive SyncOutcome (α : Type) where
  | thrown (e : JsError)
  | returned (a : α)
deriving DecidableEq, Repr

/-! ## resolveBinary (index.js): REAUTHFI_BINARY env var, bundled sibling, PATH -/

def bundledPath (dir : String) : String := dir ++ ("/reauthfi")

/-- Embeds resolveBinary from index.js.  The environment variable is an
Option String (unset = none); JavaScript truthiness makes an empty string
behave like unset.  fileExists models fs.existsSync, dir models __dirname. -/
def resolveBinary (envBinary : Option String) (fileExists : String → Bool)
    (dir : String) : String :=
  match envBinary with
  | some s =>
      if s ≠ ("") ∧ fileExists s = true then s
      else if fileExists (bundledPath dir) = true then bundledPath dir
      else ("reauthfi")
  | none =>
      if fileExists (bundledPath dir) = true then bundledPath dir
      else ("reauthfi")

/-! ## run (index.js): platform assertion, spawn, promise settlement -/

/-- The (code, signal) pair delivered to the child's exit listener. -/
structure ChildExit where
  code : Option Int
  signal : Option String
deriving DecidableEq, Repr

/-- The single event that settles the promise: an error event from spawn,
or the exit event. -/
inductive ChildEvent where
  | errorEvent (msg : String)
  | exitEvent (e : ChildExit)
deriving DecidableEq, Repr

/-- Embeds the promise-settlement listeners of run in index.js:
resolve when code is 0, reject with a signal message when a signal is
present, otherwise reject with the exit-code message. -/
def settleChild : ChildEvent → Except JsError Unit
  | .errorEvent m => .error (.spawnError m)
  | .exitEvent e =>
      if e.code = some 0 then .ok ()
      else
        match e.signal with
        | some s => .error (.signalExit s)
        | none => .error (.codeExit e.code)

/-- Observable side effects of the wrapper (spawning the child process is the
only one; all network activity happens inside the spawned binary). -/
inductive WrapperEffect where
  | spawnProc (binary : String) (args : List String)
deriving DecidableEq, Repr

/-- Embeds run(args) from index.js: assertSupportedPlatform() is executed
first and throws synchronously on an unsupported host, before the Promise
(and hence the spawn) is created; otherwise the child is spawned and the
promise settles according to the child event.  The second component is the
list of effects performed. -/
def runWrapper (h : Host) (envBinary : Option String) (fileExists : String → Bool)
    (dir : String) (args : List String) (child : ChildEvent) :
    SyncOutcome (Except JsError Unit) × List WrapperEffect :=
  if platformSupported h then
    (.returned (settleChild child),
     [.spawnProc (resolveBinary envBinary fileExists dir) args])
  else
    (.thrown (.unsupportedPlatform h.platform h.arch), [])

/-! ## bin.js: run(args).catch(err => { console.error(...); process.exit(1) }) -/

/-- What the Node process does after bin.js runs: exit with a code, or die
with an uncaught exception (a synchronous throw that .catch never sees). -/
inductive CliOutcome where
  | exitCode (n : Nat)
  | uncaughtException (e : JsError)
deriving DecidableEq, Repr

/-- Embeds bin.js: the .catch handler applies only to the promise returned by
run; a synchronous throw escapes it and kills the process.  A resolved
promise leaves the natural exit code 0; a rejection is printed and converted
to exit code 1. -/
def binMain (h : Host) (envBinary : Option String) (fileExists : String → Bool)
    (dir : String) (args : List String) (child : ChildEvent) : CliOutcome :=
  match (runWrapper h envBinary fileExists dir args child).1 with
  | .thrown e => .uncaughtException e
  | .returned (.ok _) => .exitCode 0
  | .returned (.error _) => .exitCode 1

/-! ## Native-binding entry module (index.js of the N-API package) -/

/-- The loaded native binding: its run export, of abstract type. -/
structure Binding (α : Type) where
  run : α
deriving DecidableEq, Repr

/-- Result of require('./reauthfi.darwin-arm64.node'). -/
inductive RequireResult (α : Type) where
  | ok (binding : Binding α)
  | failed (cause : String)
deriving DecidableEq, Repr

/-- What the module exports on success: the binding itself, with run copied
from it (module.exports = nativeBinding; module.exports.run = nativeBinding.run). -/
structure ModuleExports (α : Type) where
  binding : Binding α
  run : α
deriving DecidableEq, Repr

/-- Embeds the native-binding entry module: the platform check runs first at
load time and throws on a non-darwin/arm64 host; then the .node file is
required, a failure being rethrown as a load error carrying the cause;
only a successfully loaded binding is exported. -/
def loadNativeModule {α : Type} (h : Host) (req : RequireResult α) :
    SyncOutcome (ModuleExports α) :=
  if platformSupported h then
    match req with
    | .ok b => .returned ⟨b, b.run⟩
    | .failed c => .thrown (.loadFailed c)
  else
    .thrown .unsupportedPlatformModule

/-! ## Core data model (the Rust detection engine is not in the repository
snapshot; these definitions are modelled from the specification) -/

/-- Modelled from the spec: Options (§3) — immutable per-run configuration.
The timeout is integer seconds so that non-positive values can be expressed. -/
structure Options where
  verbose : Bool
  no_open : Bool
  gateway : Bool
  timeout : Int
deriving DecidableEq, Repr

/-- Modelled from the spec: ExecutionStatus (§3), the terminal result. -/
inductive ExecutionStatus where
  | Completed
  | PortalDetected (url : String)
  | NetworkNotReady
  | Inconclusive
deriving DecidableEq, Repr

/-- Modelled from the spec: result of NetworkReadinessChecker.check (§4.1). -/
inductive Readiness where
  | Ready
  | NotReady
deriving DecidableEq, Repr

/-- Modelled from the spec: ProbeEndpoint (§3) — a registry entry. -/
structure ProbeEndpoint where
  url : String
  expected_status : Nat
  expected_body_marker : Option String
deriving DecidableEq, Repr

/-- Modelled from the spec: ProbeOutcome (§3) — result of one endpoint attempt. -/
inductive ProbeOutcome where
  | Matched
  | Redirected (target : String)
  | UnexpectedResponse (status : Nat) (body_excerpt : String)
  | TimedOut
  | TransportError (reason : String)
deriving DecidableEq, Repr

/-- Modelled from the spec: GatewayProbeOutcome (§3). -/
structure GatewayProbeOutcome where
  gateway_ip : String
  outcome : ProbeOutcome
  portal_url : Option String
deriving DecidableEq, Repr

/-- Modelled from the spec: the error taxonomy entries that abort before a
status is produced (§7). -/
inductive ReauthfiError where
  | UnsupportedPlatform
  | ConfigurationError (msg : String)
deriving DecidableEq, Repr

/-- Modelled from the spec: the registry of well-known connectivity-check
endpoints (§2 ProbeEndpointRegistry; README: Apple/Google endpoints). -/
def probeEndpoints : List ProbeEndpoint :=
  [⟨("http://captive.apple.com/hotspot-detect.html"), 200, some ("Success")⟩,
   ⟨("http://connectivitycheck.gstatic.com/generate_204"), 204, none⟩]

/-! ## Probe classification (spec §4.2) -/

/-- What one HTTP attempt against an endpoint produced at the transport level. -/
inductive HttpResult where
  | response (status : Nat) (body : String) (location : Option String)
  | failure (reason : String)
deriving DecidableEq, Repr

/-- An attempt together with its wall-clock duration (abstract time units,
same unit as the timeout). -/
structure HttpAttempt where
  result : HttpResult
  duration : Nat
deriving DecidableEq, Repr

/-- Does the body carry the endpoint's expected marker (no marker: trivially). -/
def markerOk : Option String → String → Prop
  | none, _ => True
  | some m, body => 2 ≤ (body.splitOn m).length

instance : (m : Option String) → (body : String) → Decidable (markerOk m body)
  | none, _ => .isTrue trivial
  | some _, _ => Nat.decLe _ _

/-- Modelled from the spec: portal URL extraction (§4.2, §9) — the redirect
target (Location header) first; the spec leaves the body-embedded heuristic
open, so the probed endpoint's own URL is the fallback candidate. -/
def extractPortalUrl (e : ProbeEndpoint) (location : Option String) : String :=
  match location with
  | some l => if l = ("") then e.url else l
  | none => e.url

/-- Modelled from the spec: response classification (§4.2) — exact match of
status and body marker gives Matched; a redirect status, or a 200 whose body
diverges from the marker, is portal evidence (Redirected); transport-level
failures carry their reason. -/
def classify (e : ProbeEndpoint) (r : HttpResult) : ProbeOutcome :=
  match r with
  | .failure reason => .TransportError reason
  | .response status body location =>
      if status = e.expected_status ∧ markerOk e.expected_body_marker body then
        .Matched
      else if 300 ≤ status ∧ status ≤ 399 then
        .Redirected (extractPortalUrl e location)
      else if status = 200 then
        .Redirected (extractPortalUrl e location)
      else
        .UnexpectedResponse status body

/-- Modelled from the spec: one probe with its per-request deadline (§4.2,
§5) — an attempt that exceeds the timeout is TimedOut, never retried. -/
def probeOne (e : ProbeEndpoint) (a : HttpAttempt) (t : Nat) : ProbeOutcome :=
  if t < a.duration then .TimedOut else classify e a.result

/-- Modelled from the spec: PortalProbeEngine.probe (§4.2) — one outcome per
endpoint, the network being a map from URL to attempt. -/
def probe (endpoints : List ProbeEndpoint) (net : String → HttpAttempt)
    (t : Nat) : List ProbeOutcome :=
  endpoints.map (fun e => probeOne e (net e.url) t)

/-- Time spent on one probe: its duration, capped by the deadline. -/
def elapsedOne (a : HttpAttempt) (t : Nat) : Nat := min a.duration t

/-- Modelled from the spec: engine wall-clock latency (§4.2, §5) — probes run
concurrently, so total latency is the maximum per-probe time, not the sum. -/
def probeElapsed (endpoints : List ProbeEndpoint) (net : String → HttpAttempt)
    (t : Nat) : Nat :=
  (endpoints.map (fun e => elapsedOne (net e.url) t)).foldr max 0

/-! ## DetectionResolver (spec §4.4) -/

/-- First Redirected outcome in completion order, if any. -/
def firstRedirect : List ProbeOutcome → Option String
  | [] => none
  | .Redirected u :: _ => some u
  | .Matched :: rest => firstRedirect rest
  | .UnexpectedResponse _ _ :: rest => firstRedirect rest
  | .TimedOut :: rest => firstRedirect rest
  | .TransportError _ :: rest => firstRedirect rest

/-- Does at least one outcome report Matched. -/
def hasMatched (outs : List ProbeOutcome) : Bool :=
  outs.any (fun o =>
    match o with
    | .Matched => true
    | _ => false)

/-- Portal URL reported by the gateway detector, if it ran and fired. -/
def gatewayPortalUrl (gw : Option GatewayProbeOutcome) : Option String :=
  match gw with
  | none => none
  | some g => g.portal_url

/-- Which portal URL wins: the gateway's when gateway-first mode is on,
the engine's first redirect otherwise, each falling back to the other. -/
def portalChoice (gatewayFirst : Bool) (gu eu : Option String) : Option String :=
  match gatewayFirst with
  | true =>
      match gu with
      | some u => some u
      | none => eu
  | false =>
      match eu with
      | some u => some u
      | none => gu

/-- Modelled from the spec: DetectionResolver.resolve (§4.4), a pure function.
NetworkNotReady short-circuits; otherwise any confirmed portal signal gives
PortalDetected (preferring the gateway URL in gateway-first mode); otherwise
at least one Matched gives Completed; otherwise Inconclusive. -/
def resolve (opts : Options) (engineOutcomes : List ProbeOutcome)
    (gatewayOutcome : Option GatewayProbeOutcome) (readiness : Readiness) :
    ExecutionStatus :=
  match readiness with
  | .NotReady => .NetworkNotReady
  | .Ready =>
      match portalChoice opts.gateway (gatewayPortalUrl gatewayOutcome)
          (firstRedirect engineOutcomes) with
      | some u => .PortalDetected u
      | none =>
          match hasMatched engineOutcomes with
          | true => .Completed
          | false => .Inconclusive

/-! ## Full-run pipeline (spec §2 control flow, §4.3, §4.5, §7) -/

/-- Observable effects of a core run: probe requests, the gateway probe, the
browser-open call, and the printed status line. -/
inductive CoreEffect where
  | probeReq (url : String)
  | gatewayReq
  | openBrowser (url : String)
  | statusLine (s : ExecutionStatus)
deriving DecidableEq, Repr

/-- The environment a run observes: readiness, per-URL HTTP behaviour, and
what the gateway detector would report. -/
structure Net where
  readiness : Readiness
  http : String → HttpAttempt
  gateway : Option GatewayProbeOutcome

/-- Modelled from the spec: Options validation (§6, §7) — a non-positive
timeout is a configuration error, rejected before any network activity. -/
def validateOptions (opts : Options) : Except ReauthfiError Options :=
  if opts.timeout ≤ 0 then
    .error (.ConfigurationError ("timeout must be a positive integer"))
  else
    .ok opts

/-- Modelled from the spec: the default of the timeout flag (§6) — 10 seconds
when the flag is omitted. -/
def effectiveTimeout (flag : Option Int) : Int :=
  match flag with
  | some t => t
  | none => 10

/-- Engine ambiguity (§4.2): no portal signal and no Matched, i.e. only
timeouts and transport errors. -/
def engineAmbiguous (outs : List ProbeOutcome) : Bool :=
  (firstRedirect outs).isNone && !(hasMatched outs)

/-- Effects of probing every registry endpoint. -/
def probeEffects : List CoreEffect :=
  probeEndpoints.map (fun e => .probeReq e.url)

/-- Modelled from the spec: PortalLauncher.launch (§4.5) — a no-op when
no_open is set; otherwise it delegates to the browser-open capability. -/
def launchEffects (opts : Options) (status : ExecutionStatus) : List CoreEffect :=
  match status with
  | .PortalDetected u =>
      match opts.no_open with
      | true => []
      | false => [.openBrowser u]
  | _ => []

/-- Modelled from the spec: the detection pipeline (§2): readiness gates
entry (no probe is issued when not ready); in gateway-first mode the gateway
detector runs before the engine and a clear portal signal short-circuits
further probing; otherwise the engine runs and the gateway is consulted only
when the engine outcome is ambiguous; the resolver reduces the outcomes. -/
def detect (opts : Options) (net : Net) : ExecutionStatus × List CoreEffect :=
  match net.readiness with
  | .NotReady => (.NetworkNotReady, [])
  | .Ready =>
      match opts.gateway with
      | true =>
          match gatewayPortalUrl net.gateway with
          | some u => (.PortalDetected u, [.gatewayReq])
          | none =>
              (resolve opts (probe probeEndpoints net.http opts.timeout.toNat)
                 net.gateway .Ready,
               .gatewayReq :: probeEffects)
      | false =>
          match engineAmbiguous (probe probeEndpoints net.http opts.timeout.toNat) with
          | true =>
              (resolve opts (probe probeEndpoints net.http opts.timeout.toNat)
                 net.gateway .Ready,
               probeEffects ++ [.gatewayReq])
          | false =>
              (resolve opts (probe probeEndpoints net.http opts.timeout.toNat)
                 none .Ready,
               probeEffects)

/-- Modelled from the spec: the core entry run(options) (§7, §9 and the
core README): the platform gate runs once at entry (non-macOS hosts get
UnsupportedPlatform with nothing else done), options are validated before any
network activity, then detection runs, the status line is printed, and the
launcher runs last. -/
def runCore (opts : Options) (h : Host) (net : Net) :
    Except ReauthfiError ExecutionStatus × List CoreEffect :=
  if h.platform = ("darwin") then
    match validateOptions opts with
    | .error e => (.error e, [])
    | .ok o =>
        (.ok (detect o net).1,
         (detect o net).2 ++ [.statusLine (detect o net).1]
           ++ launchEffects o (detect o net).1)
  else
    (.error .UnsupportedPlatform, [])

/-- Modelled from the spec: the exit code the CLI layer derives from the
core's result (§6) — 0 on Completed or PortalDetected, non-zero (1) on
NetworkNotReady, Inconclusive, or any unrecoverable error. -/
def coreExitCode : Except ReauthfiError ExecutionStatus → Int
  | .ok .Completed => 0
  | .ok (.PortalDetected _) => 0
  | .ok .NetworkNotReady => 1
  | .ok .Inconclusive => 1
  | .error _ => 1

/-- Recognizes the printed status line among a run's effects. -/
def isStatusLine : CoreEffect → Bool
  | .statusLine _ => true
  | _ => false

/-! ## Claims about the JavaScript wrapper layer -/

/-- C1: on a host whose OS/architecture is not darwin/arm64, the entry point
fails with the unsupported-platform error before any probing is attempted:
run throws the platform assertion before creating the child process, so no
spawn (and hence no network activity) occurs, and the native-binding module
performs the same check at load time. -/
theorem claim_C1_unsupported_platform_no_spawn {α : Type} (h : Host)
    (hns : ¬ platformSupported h) (envBinary : Option String)
    (fileExists : String → Bool) (dir : String) (args : List String)
    (child : ChildEvent) (req : RequireResult α) :
    runWrapper h envBinary fileExists dir args child =
      (.thrown (.unsupportedPlatform h.platform h.arch), []) ∧
    loadNativeModule h req = .thrown .unsupportedPlatformModule := by
  constructor
  · simp [runWrapper, hns]
  · simp [loadNativeModule, hns]

theorem claim_C1_witness :
    runWrapper ⟨("linux"), ("x64")⟩ none (fun _ => false) ("") []
        (.exitEvent ⟨some 0, none⟩) =
      (.thrown (.unsupportedPlatform ("linux") ("x64")), []) ∧
    loadNativeModule (α := Nat) ⟨("linux"), ("x64")⟩ (.failed ("boom")) =
      .thrown .unsupportedPlatformModule :=
  claim_C1_unsupported_platform_no_spawn ⟨("linux"), ("x64")⟩ (by decide) none
    (fun _ => false) ("") [] (.exitEvent ⟨some 0, none⟩) (.failed ("boom"))

/-- C8: when the host platform check fails, run(args) throws synchronously
rather than returning a rejected promise, so the .catch handler in bin.js
never observes the unsupported-platform error: the process dies with an
uncaught exception instead of exiting via the handler. -/
theorem claim_C8_sync_throw_bypasses_catch (h : Host)
    (hns : ¬ platformSupported h) (envBinary : Option String)
    (fileExists : String → Bool) (dir : String) (args : List String)
    (child : ChildEvent) :
    (runWrapper h envBinary fileExists dir args child).1 =
      .thrown (.unsupportedPlatform h.platform h.arch) ∧
    (∀ e, (runWrapper h envBinary fileExists dir args child).1 ≠
      .returned (.error e)) ∧
    binMain h envBinary fileExists dir args child =
      .uncaughtException (.unsupportedPlatform h.platform h.arch) := by
  refine ⟨by simp [runWrapper, hns], fun e => by simp [runWrapper, hns], ?_⟩
  simp [binMain, runWrapper, hns]

theorem claim_C8_witness :
    (runWrapper ⟨("win32"), ("x64")⟩ none (fun _ => true) ("/pkg") []
        (.exitEvent ⟨some 0, none⟩)).1 =
      .thrown (.unsupportedPlatform ("win32") ("x64")) ∧
    (runWrapper ⟨("win32"), ("x64")⟩ none (fun _ => true) ("/pkg") []
        (.exitEvent ⟨some 0, none⟩)).1 ≠
      .returned (.error (.spawnError ("x"))) ∧
    binMain ⟨("win32"), ("x64")⟩ none (fun _ => true) ("/pkg") []
        (.exitEvent ⟨some 0, none⟩) =
      .uncaughtException (.unsupportedPlatform ("win32") ("x64")) := by
  obtain ⟨h1, h2, h3⟩ := claim_C8_sync_throw_bypasses_catch ⟨("win32"), ("x64")⟩
    (by decide) none (fun _ => true) ("/pkg") [] (.exitEvent ⟨some 0, none⟩)
  exact ⟨h1, h2 (.spawnError ("x")), h3⟩

/-- C9: resolveBinary follows the strict precedence: the REAUTHFI_BINARY
environment variable when set (non-empty, per JavaScript truthiness) and
naming an existing file; otherwise the bundled sibling path when it exists;
otherwise the bare string for a PATH lookup — and never anything else. -/
theorem claim_C9_resolve_binary_precedence :
    (∀ (s : String) (fe : String → Bool) (dir : String), s ≠ ("") →
      fe s = true → resolveBinary (some s) fe dir = s) ∧
    (∀ (s : String) (fe : String → Bool) (dir : String), fe s = false →
      fe (bundledPath dir) = true →
      resolveBinary (some s) fe dir = bundledPath dir) ∧
    (∀ (fe : String → Bool) (dir : String), fe (bundledPath dir) = true →
      resolveBinary none fe dir = bundledPath dir) ∧
    (∀ (s : String) (fe : String → Bool) (dir : String), fe s = false →
      fe (bundledPath dir) = false →
      resolveBinary (some s) fe dir = ("reauthfi")) ∧
    (∀ (fe : String → Bool) (dir : String), fe (bundledPath dir) = false →
      resolveBinary none fe dir = ("reauthfi")) ∧
    (∀ (envBinary : Option String) (fe : String → Bool) (dir : String),
      (∃ s, envBinary = some s ∧ resolveBinary envBinary fe dir = s) ∨
      resolveBinary envBinary fe dir = bundledPath dir ∨
      resolveBinary envBinary fe dir = ("reauthfi")) := by
  refine ⟨?_, ?_, ?_, ?_, ?_, ?_⟩
  · intro s fe dir hs hfe
    simp [resolveBinary, hs, hfe]
  · intro s fe dir hfe hb
    simp [resolveBinary, hfe, hb]
  · intro fe dir hb
    simp [resolveBinary, hb]
  · intro s fe dir hfe hb
    simp [resolveBinary, hfe, hb]
  · intro fe dir hb
    simp [resolveBinary, hb]
  · intro envBinary fe dir
    cases envBinary with
    | none =>
        by_cases hb : fe (bundledPath dir) = true
        · exact Or.inr (Or.inl (by simp [resolveBinary, hb]))
        · exact Or.inr (Or.inr (by simp [resolveBinary, hb]))
    | some s =>
        by_cases hc : s ≠ ("") ∧ fe s = true
        · exact Or.inl ⟨s, rfl, by simp [resolveBinary, hc.1, hc.2]⟩
        · by_cases hb : fe (bundledPath dir) = true
          · refine Or.inr (Or.inl ?_)
            simp only [resolveBinary]
            rw [if_neg hc, if_pos hb]
          · refine Or.inr (Or.inr ?_)
            simp only [resolveBinary]
            rw [if_neg hc, if_neg hb]

theorem claim_C9_witness :
    resolveBinary (some ("/custom/reauthfi")) (fun _ => true) ("/pkg") =
      ("/custom/reauthfi") :=
  claim_C9_resolve_binary_precedence.1 ("/custom/reauthfi") (fun _ => true)
    ("/pkg") (by decide) rfl

/-- C10: the native-binding entry module either throws at load time (the
unsupported-platform error on non-darwin/arm64 hosts, or the load-failure
error carrying the original cause when requiring the .node file fails) or
exports a run function taken from the successfully loaded binding; it never
exports run without a loaded binding. -/
theorem claim_C10_native_module_load {α : Type} (h : Host)
    (req : RequireResult α) :
    (¬ platformSupported h →
      loadNativeModule h req = .thrown .unsupportedPlatformModule) ∧
    (∀ c, platformSupported h → req = .failed c →
      loadNativeModule h req = .thrown (.loadFailed c)) ∧
    (∀ m, loadNativeModule h req = .returned m →
      req = .ok m.binding ∧ m.run = m.binding.run) := by
  refine ⟨fun hns => by simp [loadNativeModule, hns], ?_, ?_⟩
  · intro c hsup hreq
    subst hreq
    simp [loadNativeModule, hsup]
  · intro m hm
    unfold loadNativeModule at hm
    split at hm
    · cases req with
      | ok b =>
          simp only at hm
          cases hm
          exact ⟨rfl, rfl⟩
      | failed c => simp at hm
    · simp at hm

theorem claim_C10_witness :
    loadNativeModule (α := Nat) ⟨("darwin"), ("arm64")⟩ (.failed ("boom")) =
      .thrown (.loadFailed ("boom")) :=
  (claim_C10_native_module_load ⟨("darwin"), ("arm64")⟩ (.failed ("boom"))).2.1
    ("boom") (by decide) rfl

/-! ## Claims about exit codes and the detection resolver -/

/-- C2: the wrapper's promise resolves exactly when the spawned process exits
with code 0 (a signal termination rejects with the signal message), and with
the spec's exit-code mapping (0 on Completed or PortalDetected, non-zero
otherwise) the CLI entry point reports exit code 0 exactly when the core
reported Completed or PortalDetected. -/
theorem claim_C2_exit_code_zero_iff_success :
    (∀ ev, settleChild ev = .ok () ↔
      ∃ ex, ev = .exitEvent ex ∧ ex.code = some 0) ∧
    (∀ (code : Option Int) (sig : String), code ≠ some 0 →
      settleChild (.exitEvent ⟨code, some sig⟩) = .error (.signalExit sig)) ∧
    (∀ (h : Host) (envBinary : Option String) (fe : String → Bool)
      (dir : String) (args : List String)
      (r : Except ReauthfiError ExecutionStatus), platformSupported h →
      (binMain h envBinary fe dir args
          (.exitEvent ⟨some (coreExitCode r), none⟩) = .exitCode 0 ↔
        r = .ok .Completed ∨ ∃ u, r = .ok (.PortalDetected u))) := by
  refine ⟨?_, ?_, ?_⟩
  · intro ev
    cases ev with
    | errorEvent m => simp [settleChild]
    | exitEvent ex =>
        by_cases hc : ex.code = some 0
        · simp only [settleChild, if_pos hc]
          exact ⟨fun _ => ⟨ex, rfl, hc⟩, fun _ => trivial⟩
        · simp only [settleChild, if_neg hc]
          constructor
          · intro hcontra
            cases hsig : ex.signal <;> rw [hsig] at hcontra <;> cases hcontra
          · rintro ⟨ex2, hev, hcode⟩
            cases hev
            exact absurd hcode hc
  · intro code sig hc
    simp [settleChild, hc]
  · intro h envBinary fe dir args r hsup
    cases r with
    | ok s =>
        cases s <;>
          simp [binMain, runWrapper, hsup, settleChild, coreExitCode]
    | error e =>
        simp [binMain, runWrapper, hsup, settleChild, coreExitCode]

theorem claim_C2_witness :
    (binMain ⟨("darwin"), ("arm64")⟩ none (fun _ => false) ("") []
        (.exitEvent ⟨some (coreExitCode (.ok .Completed)), none⟩) =
      .exitCode 0) ∧
    settleChild (.exitEvent ⟨none, some ("SIGKILL")⟩) =
      .error (.signalExit ("SIGKILL")) := by
  constructor
  · exact (claim_C2_exit_code_zero_iff_success.2.2 ⟨("darwin"), ("arm64")⟩ none
      (fun _ => false) ("") [] (.ok .Completed) (by decide)).mpr (Or.inl rfl)
  · exact claim_C2_exit_code_zero_iff_success.2.1 none ("SIGKILL") (by decide)

/-! ## Helper lemmas for the resolver -/

theorem portalChoice_eq_none {g : Bool} {gu eu : Option String} :
    portalChoice g gu eu = none ↔ gu = none ∧ eu = none := by
  cases g <;> cases gu <;> cases eu <;> simp [portalChoice]

theorem firstRedirect_eq_none_of_failures {outs : List ProbeOutcome}
    (h : ∀ o ∈ outs, o = .TimedOut ∨ ∃ r, o = .TransportError r) :
    firstRedirect outs = none := by
  induction outs with
  | nil => rfl
  | cons o rest ih =>
      have hrest : ∀ x ∈ rest, x = .TimedOut ∨ ∃ r, x = .TransportError r :=
        fun x hx => h x (List.mem_cons_of_mem o hx)
      rcases h o (List.mem_cons_self o rest) with ho | ⟨r, ho⟩ <;> subst ho <;>
        simpa [firstRedirect] using ih hrest

theorem hasMatched_eq_false_of_failures {outs : List ProbeOutcome}
    (h : ∀ o ∈ outs, o = .TimedOut ∨ ∃ r, o = .TransportError r) :
    hasMatched outs = false := by
  induction outs with
  | nil => rfl
  | cons o rest ih =>
      have hrest : ∀ x ∈ rest, x = .TimedOut ∨ ∃ r, x = .TransportError r :=
        fun x hx => h x (List.mem_cons_of_mem o hx)
      rcases h o (List.mem_cons_self o rest) with ho | ⟨r, ho⟩ <;> subst ho <;>
        simpa [hasMatched] using ih hrest

theorem firstRedirect_isSome_of_mem {outs : List ProbeOutcome} {u : String}
    (h : ProbeOutcome.Redirected u ∈ outs) :
    ∃ v, firstRedirect outs = some v ∧ ProbeOutcome.Redirected v ∈ outs := by
  induction outs with
  | nil => cases h
  | cons o rest ih =>
      rcases List.mem_cons.mp h with h0 | h0
      · subst h0
        exact ⟨u, rfl, List.mem_cons_self _ _⟩
      · obtain ⟨v, hv, hm⟩ := ih h0
        cases o with
        | Redirected w => exact ⟨w, rfl, List.mem_cons_self _ _⟩
        | Matched =>
            exact ⟨v, by simpa [firstRedirect] using hv,
              List.mem_cons_of_mem _ hm⟩
        | UnexpectedResponse a b =>
            exact ⟨v, by simpa [firstRedirect] using hv,
              List.mem_cons_of_mem _ hm⟩
        | TimedOut =>
            exact ⟨v, by simpa [firstRedirect] using hv,
              List.mem_cons_of_mem _ hm⟩
        | TransportError r =>
            exact ⟨v, by simpa [firstRedirect] using hv,
              List.mem_cons_of_mem _ hm⟩

/-- C3: resolve follows the precedence exactly: NetworkNotReady from the
readiness check short-circuits everything (and the pipeline issues no probe
in that case); otherwise any confirmed portal signal yields PortalDetected;
otherwise at least one Matched yields Completed; otherwise (only timeouts and
transport errors, no gateway signal) the result is Inconclusive, never
Completed. -/
theorem claim_C3_resolve_precedence :
    (∀ opts eng gw, resolve opts eng gw .NotReady = .NetworkNotReady) ∧
    (∀ opts net, net.readiness = .NotReady →
      detect opts net = (.NetworkNotReady, [])) ∧
    (∀ opts eng gw, ((firstRedirect eng).isSome ∨
        (gatewayPortalUrl gw).isSome) →
      ∃ u, resolve opts eng gw .Ready = .PortalDetected u) ∧
    (∀ opts eng gw, firstRedirect eng = none → gatewayPortalUrl gw = none →
      hasMatched eng = true → resolve opts eng gw .Ready = .Completed) ∧
    (∀ opts eng gw, (∀ o ∈ eng, o = .TimedOut ∨ ∃ r, o = .TransportError r) →
      gatewayPortalUrl gw = none →
      resolve opts eng gw .Ready = .Inconclusive) := by
  refine ⟨fun _ _ _ => rfl, ?_, ?_, ?_, ?_⟩
  · intro opts net h
    simp [detect, h]
  · intro opts eng gw hsig
    cases hc : portalChoice opts.gateway (gatewayPortalUrl gw)
        (firstRedirect eng) with
    | some u => exact ⟨u, by simp [resolve, hc]⟩
    | none =>
        obtain ⟨hgu, heu⟩ := portalChoice_eq_none.mp hc
        rcases hsig with hs | hs
        · rw [heu] at hs
          cases hs
        · rw [hgu] at hs
          cases hs
  · intro opts eng gw heu hgu hm
    have hc : portalChoice opts.gateway (gatewayPortalUrl gw)
        (firstRedirect eng) = none := by
      cases hg : opts.gateway <;> simp [portalChoice, heu, hgu]
    simp [resolve, hc, hm]
  · intro opts eng gw hall hgu
    have heu : firstRedirect eng = none := firstRedirect_eq_none_of_failures hall
    have hm : hasMatched eng = false := hasMatched_eq_false_of_failures hall
    have hc : portalChoice opts.gateway (gatewayPortalUrl gw)
        (firstRedirect eng) = none := by
      cases hg : opts.gateway <;> simp [portalChoice, heu, hgu]
    simp [resolve, hc, hm]

theorem claim_C3_witness :
    resolve ⟨false, false, false, 10⟩ [.TimedOut, .TransportError ("dns")]
        none .Ready = .Inconclusive ∧
    detect ⟨false, false, false, 10⟩
        ⟨.NotReady, fun _ => ⟨.failure ("down"), 0⟩, none⟩ =
      (.NetworkNotReady, []) := by
  constructor
  · refine claim_C3_resolve_precedence.2.2.2.2 ⟨false, false, false, 10⟩
      [.TimedOut, .TransportError ("dns")] none ?_ rfl
    intro o ho
    rcases List.mem_cons.mp ho with h | h
    · exact Or.inl h
    · rcases List.mem_cons.mp h with h2 | h2
      · exact Or.inr ⟨("dns"), h2⟩
      · cases h2
  · exact claim_C3_resolve_precedence.2.1 ⟨false, false, false, 10⟩
      ⟨.NotReady, fun _ => ⟨.failure ("down"), 0⟩, none⟩ rfl

/-! ## Helper lemmas for probe classification and portal URLs -/

theorem probeEndpoints_url_ne_empty : ∀ e ∈ probeEndpoints, e.url ≠ ("") := by
  decide

theorem extractPortalUrl_ne_empty {e : ProbeEndpoint} (he : e.url ≠ (""))
    (loc : Option String) : extractPortalUrl e loc ≠ ("") := by
  cases loc with
  | none => exact he
  | some l =>
      rcases eq_or_ne l ("") with hl | hl
      · simpa [extractPortalUrl, hl] using he
      · simp [extractPortalUrl, hl]

theorem classify_redirect_ne_empty {e : ProbeEndpoint} (he : e.url ≠ (""))
    {r : HttpResult} {u : String} (hp : classify e r = .Redirected u) :
    u ≠ ("") := by
  cases r with
  | failure reason => simp [classify] at hp
  | response st body loc =>
      simp only [classify] at hp
      split at hp
      · simp at hp
      · split at hp
        · rw [ProbeOutcome.Redirected.injEq] at hp
          exact hp ▸ extractPortalUrl_ne_empty he loc
        · split at hp
          · rw [ProbeOutcome.Redirected.injEq] at hp
            exact hp ▸ extractPortalUrl_ne_empty he loc
          · simp at hp

theorem probeOne_redirect_ne_empty {e : ProbeEndpoint} (he : e.url ≠ (""))
    {a : HttpAttempt} {t : Nat} {u : String}
    (hp : probeOne e a t = .Redirected u) : u ≠ ("") := by
  unfold probeOne at hp
  split at hp
  · simp at hp
  · exact classify_redirect_ne_empty he hp

theorem probe_mem_redirect {endpoints : List ProbeEndpoint}
    {net : String → HttpAttempt} {t : Nat} {u : String}
    (h : ProbeOutcome.Redirected u ∈ probe endpoints net t) :
    ∃ e ∈ endpoints, probeOne e (net e.url) t = .Redirected u := by
  simpa [probe, List.mem_map] using h

theorem classify_divergent (e : ProbeEndpoint) (st : Nat) (body : String)
    (loc : Option String)
    (hdiv : (st = 200 ∧ ¬ markerOk e.expected_body_marker body) ∨
      (300 ≤ st ∧ st ≤ 399))
    (hne : ¬ (st = e.expected_status ∧ markerOk e.expected_body_marker body)) :
    classify e (.response st body loc) = .Redirected (extractPortalUrl e loc) := by
  simp only [classify]
  rw [if_neg hne]
  rcases hdiv with ⟨h200, _⟩ | ⟨h3, h4⟩
  · rw [if_neg (by omega), if_pos h200]
  · rw [if_pos ⟨h3, h4⟩]

/-- C4: every probe response that diverges from the endpoint's expected
canonical response — an HTTP 200 whose body lacks the expected marker, or any
30x redirect — is classified as portal evidence, and resolve yields
PortalDetected with a non-empty URL. -/
theorem claim_C4_divergence_portal_detected (opts : Options)
    (hg : opts.gateway = false) (net : String → HttpAttempt) (t : Nat)
    (gw : Option GatewayProbeOutcome) (e : ProbeEndpoint)
    (he : e ∈ probeEndpoints) (st : Nat) (body : String) (loc : Option String)
    (d : Nat) (hresp : net e.url = ⟨.response st body loc, d⟩) (hd : d ≤ t)
    (hdiv : (st = 200 ∧ ¬ markerOk e.expected_body_marker body) ∨
      (300 ≤ st ∧ st ≤ 399)) :
    classify e (.response st body loc) = .Redirected (extractPortalUrl e loc) ∧
    ∃ u, resolve opts (probe probeEndpoints net t) gw .Ready =
      .PortalDetected u ∧ u ≠ ("") := by
  have hne : ¬ (st = e.expected_status ∧ markerOk e.expected_body_marker body) := by
    fin_cases he
    · rintro ⟨h1, h2⟩
      rcases hdiv with ⟨_, hm⟩ | ⟨h3, _⟩
      · exact hm h2
      · simp at h1
        omega
    · rintro ⟨h1, _⟩
      simp at h1
      rcases hdiv with ⟨h200, _⟩ | ⟨h3, h4⟩ <;> omega
  have hcl : classify e (.response st body loc) =
      .Redirected (extractPortalUrl e loc) :=
    classify_divergent e st body loc hdiv hne
  have hpo : probeOne e (net e.url) t = .Redirected (extractPortalUrl e loc) := by
    rw [hresp]
    unfold probeOne
    rw [if_neg (by simp; omega)]
    exact hcl
  have hmem : ProbeOutcome.Redirected (extractPortalUrl e loc) ∈
      probe probeEndpoints net t := by
    have hmem0 := List.mem_map_of_mem (fun x => probeOne x (net x.url) t) he
    simp only at hmem0
    rw [hpo] at hmem0
    simpa [probe] using hmem0
  obtain ⟨v, hv, hvm⟩ := firstRedirect_isSome_of_mem hmem
  obtain ⟨e2, he2, hpo2⟩ := probe_mem_redirect hvm
  have hvne : v ≠ ("") :=
    probeOne_redirect_ne_empty (probeEndpoints_url_ne_empty e2 he2) hpo2
  refine ⟨hcl, v, ?_, hvne⟩
  simp [resolve, hg, portalChoice, hv]

theorem claim_C4_witness :
    classify ⟨("http://captive.apple.com/hotspot-detect.html"), 200,
        some ("Success")⟩
      (.response 302 ("") (some ("http://gw.portal/login"))) =
      .Redirected (extractPortalUrl
        ⟨("http://captive.apple.com/hotspot-detect.html"), 200,
          some ("Success")⟩ (some ("http://gw.portal/login"))) ∧
    ∃ u, resolve ⟨false, false, false, 10⟩
        (probe probeEndpoints
          (fun _ => ⟨.response 302 ("") (some ("http://gw.portal/login")), 1⟩)
          10) none .Ready = .PortalDetected u ∧ u ≠ ("") :=
  claim_C4_divergence_portal_detected ⟨false, false, false, 10⟩ rfl
    (fun _ => ⟨.response 302 ("") (some ("http://gw.portal/login")), 1⟩) 10
    none ⟨("http://captive.apple.com/hotspot-detect.html"), 200,
      some ("Success")⟩ (by decide) 302 ("")
    (some ("http://gw.portal/login")) 1 rfl (by decide) (by decide)

/-! ## Helper lemmas for the full-run pipeline -/

theorem probeEffects_shape : ∀ eff ∈ probeEffects, ∃ url, eff = .probeReq url := by
  intro eff h
  obtain ⟨a, _, ha⟩ := List.mem_map.mp (by simpa [probeEffects] using h)
  exact ⟨a.url, ha.symm⟩

theorem detect_effects_shape (opts : Options) (net : Net) :
    ∀ eff ∈ (detect opts net).2,
      eff = .gatewayReq ∨ ∃ url, eff = .probeReq url := by
  intro eff hmem
  unfold detect at hmem
  split at hmem
  · simp at hmem
  · split at hmem
    · split at hmem
      · simp at hmem
        exact Or.inl hmem
      · rcases List.mem_cons.mp hmem with h | h
        · exact Or.inl h
        · exact Or.inr (probeEffects_shape eff h)
    · split at hmem
      · rcases List.mem_append.mp hmem with h | h
        · exact Or.inr (probeEffects_shape eff h)
        · simp at h
          exact Or.inl h
      · exact Or.inr (probeEffects_shape eff hmem)

theorem launchEffects_no_open {opts : Options} (hno : opts.no_open = true)
    (s : ExecutionStatus) : launchEffects opts s = [] := by
  cases s <;> simp [launchEffects, hno]

theorem countP_statusLine_detect (opts : Options) (net : Net) :
    (detect opts net).2.countP isStatusLine = 0 := by
  rw [List.countP_eq_zero]
  intro a ha
  rcases detect_effects_shape opts net a ha with h | ⟨u, h⟩ <;> subst h <;>
    simp [isStatusLine]

theorem countP_statusLine_launch (opts : Options) (s : ExecutionStatus) :
    (launchEffects opts s).countP isStatusLine = 0 := by
  cases s <;> cases hno : opts.no_open <;>
    simp [launchEffects, hno, isStatusLine, List.countP_cons]

theorem validateOptions_pos {opts : Options} (ht : 0 < opts.timeout) :
    validateOptions opts = .ok opts := by
  unfold validateOptions
  rw [if_neg (by omega)]

theorem runCore_ok (opts : Options) (hst : Host) (net : Net)
    (hp : hst.platform = ("darwin")) (ht : 0 < opts.timeout) :
    runCore opts hst net =
      (.ok (detect opts net).1,
       (detect opts net).2 ++ [.statusLine (detect opts net).1]
         ++ launchEffects opts (detect opts net).1) := by
  simp [runCore, hp, validateOptions_pos ht]

/-- C5: the engine's wall-clock latency is bounded by the configured timeout
regardless of how many endpoints are unreachable (probes run concurrently
with a per-request deadline, so latency is the maximum, not the sum), the
engine returns one outcome per endpoint, and a valid run always prints
exactly one definitive status line. -/
theorem claim_C5_bounded_latency :
    (∀ (endpoints : List ProbeEndpoint) (net : String → HttpAttempt) (t : Nat),
      probeElapsed endpoints net t ≤ t) ∧
    (∀ (endpoints : List ProbeEndpoint) (net : String → HttpAttempt) (t : Nat),
      (probe endpoints net t).length = endpoints.length) ∧
    (∀ (opts : Options) (hst : Host) (net : Net),
      hst.platform = ("darwin") → 0 < opts.timeout →
      (runCore opts hst net).2.countP isStatusLine = 1) := by
  refine ⟨?_, ?_, ?_⟩
  · intro endpoints net t
    induction endpoints with
    | nil => simp [probeElapsed]
    | cons e rest ih =>
        simp only [probeElapsed, List.map_cons, List.foldr_cons]
        have h1 : elapsedOne (net e.url) t ≤ t := min_le_right _ _
        exact max_le h1 ih
  · intro endpoints net t
    simp [probe]
  · intro opts hst net hp ht
    rw [runCore_ok opts hst net hp ht]
    simp [List.countP_append, countP_statusLine_detect, countP_statusLine_launch,
      isStatusLine, List.countP_cons]

theorem claim_C5_witness :
    probeElapsed probeEndpoints (fun _ => ⟨.failure ("down"), 99⟩) 10 ≤ 10 ∧
    (runCore ⟨false, false, false, 10⟩ ⟨("darwin"), ("arm64")⟩
        ⟨.Ready, fun _ => ⟨.failure ("down"), 99⟩, none⟩).2.countP
      isStatusLine = 1 :=
  ⟨claim_C5_bounded_latency.1 probeEndpoints (fun _ => ⟨.failure ("down"), 99⟩) 10,
   claim_C5_bounded_latency.2.2 ⟨false, false, false, 10⟩ ⟨("darwin"), ("arm64")⟩
     ⟨.Ready, fun _ => ⟨.failure ("down"), 99⟩, none⟩ rfl (by decide)⟩

/-- C6: with no_open set and a portal detected, the browser-open capability
is never invoked, and the resulting status is identical to what it would be
without the flag. -/
theorem claim_C6_no_open_suppresses_launch (opts : Options) (hst : Host)
    (net : Net) (hno : opts.no_open = true) :
    (∀ u, CoreEffect.openBrowser u ∉ (runCore opts hst net).2) ∧
    (runCore opts hst net).1 =
      (runCore { opts with no_open := false } hst net).1 := by
  have hdet : detect { opts with no_open := false } net = detect opts net := rfl
  constructor
  · intro u hmem
    by_cases hp : hst.platform = ("darwin")
    · by_cases ht : opts.timeout ≤ 0
      · simp [runCore, hp, validateOptions, ht] at hmem
      · rw [runCore_ok opts hst net hp (by omega)] at hmem
        rw [launchEffects_no_open hno] at hmem
        rcases List.mem_append.mp hmem with h | h
        · rcases List.mem_append.mp h with h2 | h2
          · rcases detect_effects_shape opts net _ h2 with h3 | ⟨url, h3⟩ <;>
              simp at h3
          · simp at h2
        · simp at h
    · simp [runCore, hp] at hmem
  · by_cases hp : hst.platform = ("darwin")
    · by_cases ht : opts.timeout ≤ 0
      · simp [runCore, hp, validateOptions, ht]
      · rw [runCore_ok opts hst net hp (by omega),
          runCore_ok { opts with no_open := false } hst net hp (by simp; omega)]
        simp [hdet]
    · simp [runCore, hp]

theorem claim_C6_witness :
    CoreEffect.openBrowser ("http://gw.portal/login") ∉
      (runCore ⟨false, true, false, 10⟩ ⟨("darwin"), ("arm64")⟩
        ⟨.Ready,
         fun _ => ⟨.response 302 ("") (some ("http://gw.portal/login")), 1⟩,
         none⟩).2 ∧
    (runCore ⟨false, true, false, 10⟩ ⟨("darwin"), ("arm64")⟩
        ⟨.Ready,
         fun _ => ⟨.response 302 ("") (some ("http://gw.portal/login")), 1⟩,
         none⟩).1 =
      (runCore { (⟨false, true, false, 10⟩ : Options) with no_open := false }
        ⟨("darwin"), ("arm64")⟩
        ⟨.Ready,
         fun _ => ⟨.response 302 ("") (some ("http://gw.portal/login")), 1⟩,
         none⟩).1 := by
  obtain ⟨h1, h2⟩ := claim_C6_no_open_suppresses_launch ⟨false, true, false, 10⟩
    ⟨("darwin"), ("arm64")⟩
    ⟨.Ready, fun _ => ⟨.response 302 ("") (some ("http://gw.portal/login")), 1⟩,
     none⟩ rfl
  exact ⟨h1 ("http://gw.portal/login"), h2⟩

/-- C7: a non-positive timeout is rejected with a configuration error before
any network activity (no effects, no ExecutionStatus produced), and an
omitted timeout flag defaults to 10 seconds. -/
theorem claim_C7_timeout_validation :
    (∀ (opts : Options) (hst : Host) (net : Net),
      hst.platform = ("darwin") → opts.timeout ≤ 0 →
      runCore opts hst net =
        (.error (.ConfigurationError ("timeout must be a positive integer")),
         [])) ∧
    effectiveTimeout none = 10 := by
  refine ⟨?_, rfl⟩
  intro opts hst net hp ht
  simp [runCore, hp, validateOptions, ht]

theorem claim_C7_witness :
    runCore ⟨false, false, false, 0⟩ ⟨("darwin"), ("arm64")⟩
        ⟨.Ready, fun _ => ⟨.failure ("x"), 0⟩, none⟩ =
      (.error (.ConfigurationError ("timeout must be a positive integer")),
       []) ∧
    effectiveTimeout none = 10 :=
  ⟨claim_C7_timeout_validation.1 ⟨false, false, false, 0⟩ ⟨("darwin"), ("arm64")⟩
     ⟨.Ready, fun _ => ⟨.failure ("x"), 0⟩, none⟩ rfl (by decide),
   claim_C7_timeout_validation.2⟩

end Reauthfi
